import Mathlib

/-!
Verification development for the Montscan ingestion-and-retry coordinator
(`src/services/ProcessingManager.py`, `src/services/ScannerHandler.py`).

The embedding models:
- the content fingerprinter `ProcessingManager._sha256` (SHA-256 over the
  file bytes, read in 8192-byte chunks, hex-encoded);
- the SQLite ledger (`_init_db`, `_is_already_processed`, `_mark_processed`)
  as an association list keyed by the fingerprint;
- the submission entry point `submit_file` and the worker-side retry loop
  `_process_with_retries`, with the external pipeline, the ledger writes and
  the file removals allowed to fail through an explicit environment;
- the FTP-handler callback `ScannerHandler.on_file_received` as written:
  for a `.pdf` path its bare-name validator call raises `NameError` before
  the `try/except` around `manager.submit_file` can run (and the module's
  line 8 uses `Path` without importing it, so the module fails at import).
-/

namespace Montscan

/-! ## SHA-256 (the hash used by `ProcessingManager._sha256`) -/

/-- 2^32, the modulus of all 32-bit arithmetic in SHA-256. -/
def M32 : Nat := 4294967296

/-- Right rotation of a 32-bit word. -/
def rotr32 (x k : Nat) : Nat := ((x >>> k) ||| (x <<< (32 - k))) % M32

/-- Bitwise complement of a 32-bit word. -/
def not32 (x : Nat) : Nat := x ^^^ 4294967295

def ch32 (x y z : Nat) : Nat := (x &&& y) ^^^ (not32 x &&& z)

def maj32 (x y z : Nat) : Nat := (x &&& y) ^^^ (x &&& z) ^^^ (y &&& z)

def bsig0 (x : Nat) : Nat := rotr32 x 2 ^^^ rotr32 x 13 ^^^ rotr32 x 22

def bsig1 (x : Nat) : Nat := rotr32 x 6 ^^^ rotr32 x 11 ^^^ rotr32 x 25

def ssig0 (x : Nat) : Nat := rotr32 x 7 ^^^ rotr32 x 18 ^^^ (x >>> 3)

def ssig1 (x : Nat) : Nat := rotr32 x 17 ^^^ rotr32 x 19 ^^^ (x >>> 10)

/-- The 64 SHA-256 round constants (FIPS 180-4, in decimal). -/
def K256 : List Nat :=
  [1116352408, 1899447441, 3049323471, 3921009573,
   961987163, 1508970993, 2453635748, 2870763221,
   3624381080, 310598401, 607225278, 1426881987,
   1925078388, 2162078206, 2614888103, 3248222580,
   3835390401, 4022224774, 264347078, 604807628,
   770255983, 1249150122, 1555081692, 1996064986,
   2554220882, 2821834349, 2952996808, 3210313671,
   3336571891, 3584528711, 113926993, 338241895,
   666307205, 773529912, 1294757372, 1396182291,
   1695183700, 1986661051, 2177026350, 2456956037,
   2730485921, 2820302411, 3259730800, 3345764771,
   3516065817, 3600352804, 4094571909, 275423344,
   430227734, 506948616, 659060556, 883997877,
   958139571, 1322822218, 1537002063, 1747873779,
   1955562222, 2024104815, 2227730452, 2361852424,
   2428436474, 2756734187, 3204031479, 3329325298]

/-- State of the eight 32-bit hash words (both the chaining value and the
working variables during compression). -/
structure Sha256State where
  h0 : Nat
  h1 : Nat
  h2 : Nat
  h3 : Nat
  h4 : Nat
  h5 : Nat
  h6 : Nat
  h7 : Nat
deriving DecidableEq

/-- SHA-256 initial hash value. -/
def initH : Sha256State :=
  ⟨1779033703, 3144134277, 1013904242, 2773480762,
   1359893119, 2600822924, 528734635, 1541459225⟩

/-- One round of the SHA-256 compression function. -/
def compressRound (s : Sha256State) (k w : Nat) : Sha256State :=
  let t1 := (s.h7 + bsig1 s.h4 + ch32 s.h4 s.h5 s.h6 + k + w) % M32
  let t2 := (bsig0 s.h0 + maj32 s.h0 s.h1 s.h2) % M32
  ⟨(t1 + t2) % M32, s.h0, s.h1, s.h2, (s.h3 + t1) % M32, s.h4, s.h5, s.h6⟩

/-- Group a byte list into big-endian 32-bit words (4 bytes per word). -/
def bytesToWords : List Nat → List Nat
  | b0 :: b1 :: b2 :: b3 :: rest =>
      (b0 * 16777216 + b1 * 65536 + b2 * 256 + b3) :: bytesToWords rest
  | _ => []

/-- Append the next word of the SHA-256 message schedule to `w`. -/
def scheduleStep (w : List Nat) : List Nat :=
  let n := w.length
  w ++ [(ssig1 (w.getD (n - 2) 0) + w.getD (n - 7) 0
          + ssig0 (w.getD (n - 15) 0) + w.getD (n - 16) 0) % M32]

/-- Extend the 16 block words to the 64-entry message schedule. -/
def schedule (ws : List Nat) : List Nat :=
  (List.range 48).foldl (fun w _ => scheduleStep w) ws

/-- Process one 64-byte block: run the 64 compression rounds and add the
result to the chaining value, all modulo 2^32. -/
def processBlock (h : Sha256State) (block : List Nat) : Sha256State :=
  let ws := schedule (bytesToWords block)
  let w := (K256.zip ws).foldl (fun s kw => compressRound s kw.1 kw.2) h
  ⟨(h.h0 + w.h0) % M32, (h.h1 + w.h1) % M32, (h.h2 + w.h2) % M32, (h.h3 + w.h3) % M32,
   (h.h4 + w.h4) % M32, (h.h5 + w.h5) % M32, (h.h6 + w.h6) % M32, (h.h7 + w.h7) % M32⟩

/-- Big-endian byte encoding of `n` on exactly `w` bytes. -/
def toBytesBE : Nat → Nat → List Nat
  | 0, _ => []
  | w + 1, n => toBytesBE w (n / 256) ++ [n % 256]

/-- SHA-256 padding: append `0x80`, zero bytes up to 56 mod 64, and the
64-bit big-endian bit length. -/
def padMessage (msg : List Nat) : List Nat :=
  let len := msg.length
  let zeros := (64 - (len + 9) % 64) % 64
  msg ++ [128] ++ List.replicate zeros 0 ++ toBytesBE 8 (len * 8)

/-- Split a list into chunks of `k + 1` elements (last chunk possibly short). -/
def chunks (k : Nat) : List α → List (List α)
  | [] => []
  | x :: xs => (x :: xs.take k) :: chunks k (xs.drop k)
termination_by l => l.length
decreasing_by simp [List.length_drop]; omega

/-- The SHA-256 digest of a byte string, as eight 32-bit words. -/
def sha256words (msg : List Nat) : Sha256State :=
  (chunks 63 (padMessage msg)).foldl processBlock initH

/-- The lower-case hex digit for `n < 16`. -/
def hexDigitChar (n : Nat) : Char :=
  if n < 10 then Char.ofNat (48 + n) else Char.ofNat (87 + n)

/-- Big-endian fixed-width hex rendering of `n` on exactly `w` digits. -/
def toHexFixed : Nat → Nat → List Char
  | 0, _ => []
  | w + 1, n => toHexFixed w (n / 16) ++ [hexDigitChar (n % 16)]

/-- The `hexdigest` of a SHA-256 digest: 8 words of 8 hex digits each. -/
def sha256hex (msg : List Nat) : String :=
  let d := sha256words msg
  ⟨toHexFixed 8 d.h0 ++ toHexFixed 8 d.h1 ++ toHexFixed 8 d.h2 ++ toHexFixed 8 d.h3 ++
   toHexFixed 8 d.h4 ++ toHexFixed 8 d.h5 ++ toHexFixed 8 d.h6 ++ toHexFixed 8 d.h7⟩

/-- Model of `ProcessingManager._sha256`: the file content is read in 8192-byte
chunks (`f.read(8192)`), each fed to the running hash; the digest equals the
SHA-256 of the concatenation of the chunks. -/
def sha256OfChunked (content : List Nat) : String :=
  sha256hex ((chunks 8191 content).flatten)

/-! ## Data model: ledger, filesystem, jobs -/

/-- One row of the `processed` SQLite table:
`(file_hash TEXT PRIMARY KEY, filename TEXT, processed_at TEXT)`. -/
structure ProcessedRecord where
  file_hash : String
  filename : String
  processed_at : String
deriving DecidableEq

/-- The ledger: the rows of the `processed` table, keyed by `file_hash`. -/
abbrev Ledger := List ProcessedRecord

/-- The local filesystem visible to the manager: path ↦ byte content. -/
abbrev FileSystem := List (String × List Nat)

/-- The state `submit_file` and `_process_with_retries` act on. -/
structure CoreState where
  fs : FileSystem
  ledger : Ledger
deriving DecidableEq

/-- A job handed to the `ThreadPoolExecutor`:
`executor.submit(self._process_with_retries, file_path, file_hash)`. -/
structure Job where
  path : String
  hash : String
deriving DecidableEq

/-- Look up a file's content (`os.path.exists` + `open(file_path, "rb")`). -/
def lookupFile (fs : FileSystem) (p : String) : Option (List Nat) :=
  (fs.find? (fun e => e.1 == p)).map (fun e => e.2)

/-- Model of `os.remove`: drop the path from the filesystem. -/
def removeFile (fs : FileSystem) (p : String) : FileSystem :=
  fs.filter (fun e => e.1 != p)

/-- Model of `os.path.basename` for POSIX paths. -/
def basename (p : String) : String :=
  (p.splitOn ("/")).getLastD p

/-- Model of `ProcessingManager._init_db`: `CREATE TABLE IF NOT EXISTS processed ...`.
A present table (`some rows`) is left untouched; an absent one is created
empty. -/
def _init_db (storage : Option Ledger) : Ledger :=
  storage.getD []

/-- Model of `ProcessingManager._is_already_processed`:
`SELECT 1 FROM processed WHERE file_hash = ?` is non-empty. -/
def _is_already_processed (ledger : Ledger) (file_hash : String) : Bool :=
  (ledger.find? (fun r => r.file_hash == file_hash)).isSome

/-- Model of `ProcessingManager._mark_processed`:
`INSERT OR REPLACE INTO processed (file_hash, filename, processed_at)` —
an upsert on the primary key `file_hash`. -/
def _mark_processed (ledger : Ledger) (file_hash filename processed_at : String) : Ledger :=
  ⟨file_hash, filename, processed_at⟩ :: ledger.filter (fun r => r.file_hash != file_hash)

/-! ## The environment: external pipeline and injected failures -/

/-- Result of one call to `processor.process_document`: a boolean, or a
raised exception. -/
inductive ProcResult
  | ok (success : Bool)
  | exn
deriving DecidableEq

/-- The external world a run interacts with: the pipeline's per-attempt
results and the failures the OS / SQLite may raise at each call site. -/
structure Env where
  /-- The `processor.process_document` outcome on attempt `n` (1-based). -/
  procResults : Nat → ProcResult
  /-- whether `_mark_processed` raises (SQLite error) on attempt `n`. -/
  markRaises : Nat → Bool
  /-- whether `os.remove` raises in the retry loop on attempt `n`. -/
  removeRaises : Nat → Bool
  /-- whether `os.remove` raises on the duplicate path of `submit_file`. -/
  dupRemoveRaises : Bool
  /-- whether `_sha256` raises `IOError` while reading the file. -/
  sha256Raises : Bool
  /-- whether `_is_already_processed` raises (SQLite error). -/
  lookupRaises : Bool
  /-- the `datetime.now(timezone.utc).isoformat()` value used on success. -/
  timestamp : String

/-- An `Env` in which no OS or storage call fails. -/
def Env.benign (e : Env) : Prop :=
  e.dupRemoveRaises = false ∧ e.sha256Raises = false ∧ e.lookupRaises = false

/-! ## `submit_file` -/

/-- Model of `file_path.lower().endswith(".pdf")`: the case-insensitive extension
check at the top of `submit_file` (and in `on_file_received`), modeled over
the character list so that it evaluates in the kernel. -/
def isPdfPath (p : String) : Bool :=
  (p.data.map Char.toLower).reverse.take 4 == ['f', 'd', 'p', '.']

/-- An exception escaping `ProcessingManager.submit_file` (it has no
`try/except` around fingerprinting or the ledger lookup). -/
inductive SubmitExn
  | fingerprintError
  | storageError
deriving DecidableEq

/-- Observable side effects of a `submit_file` call, in order. -/
inductive Eff
  | fingerprinted
  | ledgerRead
  | jobScheduled
  | fileDeleted
  | deleteFailed
deriving DecidableEq

/-- Model of `ProcessingManager.submit_file`, faithful to the source order:
1. non-`.pdf` extension (case-insensitive) → log and return;
2. `os.path.exists` false → log and return;
3. `_sha256` (may raise `IOError`);
4. `_is_already_processed` (may raise a storage error); if true, the
   duplicate is deleted (`os.remove` inside `try/except`) and no job runs;
5. otherwise `executor.submit(self._process_with_retries, ...)`.
Returns the new state, the jobs handed to the pool, and the effect trace. -/
def submit_file (env : Env) (st : CoreState) (file_path : String) :
    Except SubmitExn (CoreState × List Job × List Eff) :=
  if ¬ isPdfPath file_path then .ok (st, [], [])
  else match lookupFile st.fs file_path with
    | none => .ok (st, [], [])
    | some content =>
      if env.sha256Raises then .error .fingerprintError
      else
        let file_hash := sha256OfChunked content
        if env.lookupRaises then .error .storageError
        else if _is_already_processed st.ledger file_hash then
          if env.dupRemoveRaises then
            .ok (st, [], [.fingerprinted, .ledgerRead, .deleteFailed])
          else
            .ok ({ st with fs := removeFile st.fs file_path }, [],
                 [.fingerprinted, .ledgerRead, .fileDeleted])
        else
          .ok (st, [⟨file_path, file_hash⟩], [.fingerprinted, .ledgerRead, .jobScheduled])

/-! ## `_process_with_retries` -/

/-- Result of one worker-side run of the retry loop. -/
structure RunResult where
  st : CoreState
  /-- Outcome flag: `true` = terminal Success, `false` = ExhaustedFailure. -/
  success : Bool
  /-- the arguments of the `time.sleep(backoff)` calls, in order. -/
  sleeps : List Nat
  /-- how many times `processor.process_document` was invoked. -/
  procCalls : Nat
deriving DecidableEq

/-- The body of `_process_with_retries`, recursing on the number of
attempts still allowed (`remaining`); `attempt` is the 1-based counter and
`backoff` the current sleep duration. One iteration:
`try: success = process_document(path); if success: _mark_processed (may
raise, caught by the outer except); os.remove in its own try/except; return
except: log` — then `if attempt < max_retries: sleep(backoff); backoff *= 2`. -/
def retryLoop (env : Env) (file_path file_hash : String) (st : CoreState) :
    Nat → Nat → Nat → RunResult
  | _, _, 0 => ⟨st, false, [], 0⟩
  | attempt, backoff, remaining + 1 =>
    let attemptResult : Option CoreState :=
      match env.procResults attempt with
      | .exn => none
      | .ok false => none
      | .ok true =>
        if env.markRaises attempt then none
        else
          let ledger := _mark_processed st.ledger file_hash (basename file_path) env.timestamp
          let fs := if env.removeRaises attempt then st.fs else removeFile st.fs file_path
          some ⟨fs, ledger⟩
    match attemptResult with
    | some st => ⟨st, true, [], 1⟩
    | none =>
      if remaining = 0 then ⟨st, false, [], 1⟩
      else
        let r := retryLoop env file_path file_hash st (attempt + 1) (backoff * 2) remaining
        ⟨r.st, r.success, backoff :: r.sleeps, r.procCalls + 1⟩

/-- Model of `ProcessingManager._process_with_retries`: attempt counter starts at 1,
backoff starts at 1, up to `max_retries` attempts. -/
def _process_with_retries (env : Env) (st : CoreState)
    (file_path file_hash : String) (max_retries : Nat) : RunResult :=
  retryLoop env file_path file_hash st 1 1 max_retries

/-! ## `ScannerHandler.on_file_received` -/

/-- An exception escaping `ScannerHandler.on_file_received` (or the module
body) uncaught, reaching the FTP arrival trigger. -/
inductive HandlerExn
  | nameError
deriving DecidableEq

/-- Model of importing `ScannerHandler.py`: line 8 evaluates
`UPLOAD_DIR = Path("/srv/ftp/uploads").resolve()`, but the module imports
only `logging`, `os`, `magic` and `FTPHandler` — `Path` is not a module
global, so the module body raises `NameError` and the import fails before
the handler class is even defined. -/
def scannerHandlerImport : Except HandlerExn Unit := .error .nameError

/-- Model of `ScannerHandler.on_file_received` as written. Line 55 reads
`if not file_path.lower().endswith('.pdf') or not is_real_pdf(file_path):`.
For a non-`.pdf` path the first disjunct is true, `or` short-circuits,
and the handler logs and returns without touching anything. For a `.pdf`
path Python evaluates the bare name `is_real_pdf`, which is a class
attribute and not a local or module global, so the call raises `NameError`
out of `on_file_received`: the path-safety check (line 59, the same
bare-name slip), the size check, and the `try/except` around
`manager.submit_file` (lines 76-81) are all unreachable. -/
def on_file_received (st : CoreState) (file_path : String) :
    Except HandlerExn (CoreState × List Job) :=
  if isPdfPath file_path = false then .ok (st, [])
  else .error .nameError

/-! ## Derived notions used by the claims -/

/-- Number of ledger rows carrying a given fingerprint. -/
def countKey (ledger : Ledger) (file_hash : String) : Nat :=
  ledger.countP (fun r => r.file_hash == file_hash)

/-- Row lookup by fingerprint. -/
def lookupRecord (ledger : Ledger) (file_hash : String) : Option ProcessedRecord :=
  ledger.find? (fun r => r.file_hash == file_hash)

/-- A sequence of `record` (`_mark_processed`) operations applied in order. -/
def applyRecords (ops : List (String × String × String)) (ledger : Ledger) : Ledger :=
  ops.foldl (fun l op => _mark_processed l op.1 op.2.1 op.2.2) ledger

/-- An attempt of the retry loop fails (pipeline returned `False`, raised,
or the subsequent ledger write raised into the outer `except`). -/
def FailAt (env : Env) (attempt : Nat) : Prop :=
  ¬ (env.procResults attempt = .ok true ∧ env.markRaises attempt = false)

/-! ## Helper lemmas -/

theorem toHexFixed_length (w : Nat) : ∀ n, (toHexFixed w n).length = w := by
  induction w with
  | zero => intro n; rfl
  | succ w ih => intro n; simp [toHexFixed, ih]

theorem sha256hex_length (m : List Nat) : (sha256hex m).length = 64 := by
  show (List.length _) = 64
  simp [sha256hex, toHexFixed_length]

theorem chunks_flatten_aux (k n : Nat) :
    ∀ l : List α, l.length ≤ n → (chunks k l).flatten = l := by
  induction n with
  | zero =>
    intro l hl
    have hnil : l = [] := List.length_eq_zero.mp (Nat.le_zero.mp hl)
    subst hnil
    simp [chunks]
  | succ n ih =>
    intro l hl
    match l with
    | [] => simp [chunks]
    | x :: xs =>
      have hx : (xs.drop k).length ≤ n := by
        rw [List.length_drop]
        simp only [List.length_cons] at hl
        omega
      simp only [chunks, List.flatten_cons, ih (xs.drop k) hx]
      simp

theorem chunks_flatten (k : Nat) (l : List α) : (chunks k l).flatten = l :=
  chunks_flatten_aux k l.length l (Nat.le_refl _)

theorem sha256OfChunked_eq (content : List Nat) :
    sha256OfChunked content = sha256hex content := by
  simp [sha256OfChunked, chunks_flatten]

theorem lookupFile_removeFile_self (fs : FileSystem) (p : String) :
    lookupFile (removeFile fs p) p = none := by
  have hnone : List.find? (fun e => e.1 == p) (List.filter (fun e => e.1 != p) fs) = none := by
    rw [List.find?_eq_none]
    intro e he
    have := (List.mem_filter.mp he).2
    simp_all
  simp [lookupFile, removeFile, hnone]

theorem countKey_mark_self (L : Ledger) (h fn ts : String) :
    countKey (_mark_processed L h fn ts) h = 1 := by
  have h0 : (L.filter (fun r => r.file_hash != h)).countP (fun r => r.file_hash == h) = 0 := by
    rw [List.countP_eq_zero]
    intro r hr
    have := (List.mem_filter.mp hr).2
    simp_all
  simp [countKey, _mark_processed, List.countP_cons, h0]

theorem countKey_mark_le_one (L : Ledger) (h h' fn ts : String) (hL : countKey L h ≤ 1) :
    countKey (_mark_processed L h' fn ts) h ≤ 1 := by
  by_cases hh : h' = h
  · subst hh
    exact le_of_eq (countKey_mark_self L h' fn ts)
  · have hsub : (L.filter (fun r => r.file_hash != h')).countP (fun r => r.file_hash == h) ≤
        L.countP (fun r => r.file_hash == h) :=
      (List.filter_sublist L).countP_le _
    simp only [countKey] at hL ⊢
    simp [_mark_processed, List.countP_cons, hh]
    omega

theorem applyRecords_le_one (ops : List (String × String × String)) :
    ∀ L : Ledger, (∀ h, countKey L h ≤ 1) → ∀ h, countKey (applyRecords ops L) h ≤ 1 := by
  induction ops with
  | nil => intro L hL h; exact hL h
  | cons op ops ih =>
    intro L hL h
    exact ih _ (fun h2 => countKey_mark_le_one L h2 op.1 op.2.1 op.2.2 (hL h2)) h

theorem lookupRecord_mark_self (L : Ledger) (h fn ts : String) :
    lookupRecord (_mark_processed L h fn ts) h = some ⟨h, fn, ts⟩ := by
  simp [lookupRecord, _mark_processed, List.find?]

theorem is_already_processed_mark_self (L : Ledger) (h fn ts : String) :
    _is_already_processed (_mark_processed L h fn ts) h = true := by
  simp [_is_already_processed, lookupRecord_mark_self L h fn ts,
        show (List.find? (fun r => r.file_hash == h) (_mark_processed L h fn ts)) =
          some ⟨h, fn, ts⟩ from lookupRecord_mark_self L h fn ts]

theorem retryLoop_step_fail (env : Env) (p h : String) (st : CoreState)
    (a b r : Nat) (hf : FailAt env a) :
    retryLoop env p h st a b (r + 1) =
      if r = 0 then ⟨st, false, [], 1⟩
      else ⟨(retryLoop env p h st (a + 1) (b * 2) r).st,
            (retryLoop env p h st (a + 1) (b * 2) r).success,
            b :: (retryLoop env p h st (a + 1) (b * 2) r).sleeps,
            (retryLoop env p h st (a + 1) (b * 2) r).procCalls + 1⟩ := by
  rcases e : env.procResults a with b' | _
  · rcases b' with _ | _
    · simp [retryLoop, e]
    · have hm : env.markRaises a = true := by
        rcases Bool.eq_false_or_eq_true (env.markRaises a) with hm | hm
        · exact hm
        · exact absurd ⟨e, hm⟩ hf
      simp [retryLoop, e, hm]
  · simp [retryLoop, e]

theorem retryLoop_step_success (env : Env) (p h : String) (st : CoreState)
    (a b r : Nat) (h1 : env.procResults a = .ok true) (h2 : env.markRaises a = false) :
    retryLoop env p h st a b (r + 1) =
      ⟨⟨if env.removeRaises a then st.fs else removeFile st.fs p,
        _mark_processed st.ledger h (basename p) env.timestamp⟩, true, [], 1⟩ := by
  simp [retryLoop, h1, h2]

/-- The doubling backoff sequence: `m` sleeps starting at `b`. -/
def backoffs (b : Nat) : Nat → List Nat
  | 0 => []
  | m + 1 => b :: backoffs (b * 2) m

theorem retryLoop_all_fail (env : Env) (p h : String) (st : CoreState)
    (hf : ∀ a, FailAt env a) :
    ∀ r a b, retryLoop env p h st a b (r + 1) = ⟨st, false, backoffs b r, r + 1⟩ := by
  intro r
  induction r with
  | zero =>
    intro a b
    simpa [backoffs] using retryLoop_step_fail env p h st a b 0 (hf a)
  | succ m ih =>
    intro a b
    rw [retryLoop_step_fail env p h st a b (m + 1) (hf a)]
    simp [backoffs, ih (a + 1) (b * 2)]

/-- Concrete environment for the witnesses: the pipeline always reports
failure and no OS or storage call ever raises. -/
def envW : Env :=
  ⟨fun _ => ProcResult.ok false, fun _ => false, fun _ => false, false, false, false,
   "1970-01-01T00:00:00+00:00"⟩

/-- Concrete state for the witnesses: one PDF on disk, empty ledger. -/
def stW : CoreState := ⟨[(("a.pdf" : String), [1])], []⟩

end Montscan

open Montscan

/-- C6: the fingerprint is deterministic and depends only on the file's
full byte content (the 8192-byte chunked read hashes exactly the
concatenation of the chunks, i.e. the whole content): two files with
identical bytes get the same fingerprint regardless of path or name, and
the hex digest always has the fixed width 64 = 256 bits / 4 bits per hex
digit. -/
theorem C6_fingerprint_content_only (fs : FileSystem) (p1 p2 : String) (c1 c2 : List Nat)
    (h1 : lookupFile fs p1 = some c1) (h2 : lookupFile fs p2 = some c2) (heq : c1 = c2) :
    sha256OfChunked c1 = sha256OfChunked c2
    ∧ (∀ bs : List Nat, sha256OfChunked bs = sha256hex bs)
    ∧ (∀ bs : List Nat, (sha256OfChunked bs).length = 64) := by
  refine ⟨by rw [heq], fun bs => sha256OfChunked_eq bs, fun bs => ?_⟩
  rw [sha256OfChunked_eq]
  exact sha256hex_length bs

/-- Witness for C6: two distinct paths carrying identical bytes. -/
theorem C6_fingerprint_content_only_witness :
    sha256OfChunked [1, 2] = sha256OfChunked [1, 2]
    ∧ (∀ bs : List Nat, sha256OfChunked bs = sha256hex bs)
    ∧ (∀ bs : List Nat, (sha256OfChunked bs).length = 64) :=
  C6_fingerprint_content_only
    [(("a.pdf" : String), [1, 2]), (("b.pdf" : String), [1, 2])]
    ("a.pdf") ("b.pdf") [1, 2] [1, 2] (by decide) (by decide) rfl

/-- C7: the ledger write is an idempotent upsert — after any sequence of
`record` operations at most one row exists per fingerprint, a later write
for the same fingerprint replaces the earlier row, and the write is a total
function (`INSERT OR REPLACE` never errors on a duplicate key). -/
theorem C7_ledger_idempotent_upsert (ops : List (String × String × String))
    (L : Ledger) (h fn ts : String) :
    countKey (applyRecords ops []) h ≤ 1
    ∧ countKey (_mark_processed L h fn ts) h = 1
    ∧ lookupRecord (_mark_processed L h fn ts) h = some ⟨h, fn, ts⟩ :=
  ⟨applyRecords_le_one ops [] (fun _ => by simp [countKey]) h,
   countKey_mark_self L h fn ts,
   lookupRecord_mark_self L h fn ts⟩

/-- C8: a path without the `.pdf` extension, or one that references no
existing file, is rejected before anything else happens: `submit_file`
returns with the state unchanged, schedules no job, and its effect trace is
empty — no fingerprinting, no ledger read or write, no error to the caller. -/
theorem C8_invalid_input_rejected (env : Env) (st : CoreState) (p : String)
    (hrej : isPdfPath p = false ∨ lookupFile st.fs p = none) :
    submit_file env st p = .ok (st, [], []) := by
  rcases hrej with hr | hr
  · simp [submit_file, hr]
  · by_cases hp : isPdfPath p
    · simp [submit_file, hp, hr]
    · simp [submit_file, hp]

/-- Witness for C8: a `.txt` path is ignored. -/
theorem C8_invalid_input_rejected_witness :
    submit_file envW stW ("a.txt") = .ok (stW, [], []) :=
  C8_invalid_input_rejected envW stW ("a.txt") (Or.inl (by decide))

/-- C2: with a pipeline that never reports success and `max_retries = 3`,
the retry loop invokes the pipeline exactly 3 times, sleeps `1` then `2`
time units between consecutive attempts (doubling backoff, no sleep after
the last attempt), ends in ExhaustedFailure (`success = false`), and leaves
the whole state — ledger and source file — untouched. -/
theorem C2_bounded_retries_exhausted (env : Env) (st : CoreState) (p h : String)
    (hfail : ∀ n, env.procResults n ≠ ProcResult.ok true) :
    _process_with_retries env st p h 3 = ⟨st, false, [1, 2], 3⟩ := by
  have f : ∀ a, FailAt env a := fun a ha => hfail a ha.1
  have e := retryLoop_all_fail env p h st f 2 1 1
  have hb : backoffs 1 2 = [1, 2] := rfl
  rw [hb] at e
  exact e

/-- Witness for C2: the always-`False` pipeline stub. -/
theorem C2_bounded_retries_exhausted_witness :
    _process_with_retries envW stW ("a.pdf") ("h") 3 = ⟨stW, false, [1, 2], 3⟩ :=
  C2_bounded_retries_exhausted envW stW ("a.pdf") ("h") (fun _ => by simp [envW])

/-- C3: with a pipeline that fails on attempts 1 and 2 and returns `True`
on attempt 3 (`max_retries = 3`), the job ends in Success after exactly the
3 pipeline calls (none after the `True` return), exactly one ledger row
exists for the job's fingerprint, and the source file is deleted. -/
theorem C3_success_after_transient_failure (env : Env) (st : CoreState) (p h : String)
    (h1 : env.procResults 1 ≠ ProcResult.ok true)
    (h2 : env.procResults 2 ≠ ProcResult.ok true)
    (h3 : env.procResults 3 = ProcResult.ok true)
    (hm : env.markRaises 3 = false)
    (hr : env.removeRaises 3 = false) :
    _process_with_retries env st p h 3 =
      ⟨⟨removeFile st.fs p, _mark_processed st.ledger h (basename p) env.timestamp⟩,
       true, [1, 2], 3⟩
    ∧ countKey (_mark_processed st.ledger h (basename p) env.timestamp) h = 1
    ∧ lookupFile (removeFile st.fs p) p = none := by
  refine ⟨?_, countKey_mark_self _ _ _ _, lookupFile_removeFile_self _ _⟩
  have f1 : FailAt env 1 := fun hc => h1 hc.1
  have f2 : FailAt env 2 := fun hc => h2 hc.1
  have e3 : retryLoop env p h st 3 4 1 =
      ⟨⟨removeFile st.fs p, _mark_processed st.ledger h (basename p) env.timestamp⟩,
       true, [], 1⟩ := by
    have e := retryLoop_step_success env p h st 3 4 0 h3 hm
    rw [hr] at e
    simpa using e
  have e2 : retryLoop env p h st 2 2 2 =
      ⟨⟨removeFile st.fs p, _mark_processed st.ledger h (basename p) env.timestamp⟩,
       true, [2], 2⟩ := by
    show retryLoop env p h st 2 2 (1 + 1) = _
    rw [retryLoop_step_fail env p h st 2 2 1 f2]
    simp [e3]
  show retryLoop env p h st 1 1 (2 + 1) = _
  rw [retryLoop_step_fail env p h st 1 1 2 f1]
  simp [e2]

/-- Pipeline stub for the C3 witness: succeeds exactly on attempt 3. -/
def envThirdW : Env :=
  ⟨fun n => ProcResult.ok (n == 3), fun _ => false, fun _ => false, false, false, false,
   "1970-01-01T00:00:00+00:00"⟩

/-- Witness for C3. -/
theorem C3_success_after_transient_failure_witness :
    _process_with_retries envThirdW stW ("a.pdf") ("h") 3 =
      ⟨⟨removeFile stW.fs ("a.pdf"),
        _mark_processed stW.ledger ("h") (basename ("a.pdf")) envThirdW.timestamp⟩,
       true, [1, 2], 3⟩
    ∧ countKey (_mark_processed stW.ledger ("h") (basename ("a.pdf")) envThirdW.timestamp) ("h") = 1
    ∧ lookupFile (removeFile stW.fs ("a.pdf")) ("a.pdf") = none :=
  C3_success_after_transient_failure envThirdW stW ("a.pdf") ("h")
    (by decide) (by decide) rfl rfl rfl

/-- C10: a raised ledger write is caught by the retry loop's outer
`except` and turns the whole attempt into a failure. First conjunct: if the
pipeline always returns `True` but every `_mark_processed` raises, the run
ends in ExhaustedFailure with the state (ledger and file) untouched after
the full 3 attempts and backoff sleeps. Second conjunct: if the write
raises on attempt 1 only, the loop sleeps and re-invokes the pipeline on
attempt 2 — re-processing already-successful content — and only then
records and deletes. -/
theorem C10_mark_raise_fails_attempt (env : Env) (st : CoreState) (p h : String) :
    ((∀ n, env.procResults n = ProcResult.ok true) → (∀ n, env.markRaises n = true) →
      _process_with_retries env st p h 3 = ⟨st, false, [1, 2], 3⟩)
    ∧ (env.procResults 1 = ProcResult.ok true → env.markRaises 1 = true →
       env.procResults 2 = ProcResult.ok true → env.markRaises 2 = false →
       env.removeRaises 2 = false →
      _process_with_retries env st p h 3 =
        ⟨⟨removeFile st.fs p, _mark_processed st.ledger h (basename p) env.timestamp⟩,
         true, [1], 2⟩) := by
  constructor
  · intro hp hm
    have f : ∀ a, FailAt env a := fun a hc => by simp [hm a] at hc
    have e := retryLoop_all_fail env p h st f 2 1 1
    have hb : backoffs 1 2 = [1, 2] := rfl
    rw [hb] at e
    exact e
  · intro hp1 hm1 hp2 hm2 hr2
    have f1 : FailAt env 1 := fun hc => by simp [hm1] at hc
    have e2 : retryLoop env p h st 2 2 2 =
        ⟨⟨removeFile st.fs p, _mark_processed st.ledger h (basename p) env.timestamp⟩,
         true, [], 1⟩ := by
      show retryLoop env p h st 2 2 (1 + 1) = _
      have e := retryLoop_step_success env p h st 2 2 1 hp2 hm2
      rw [hr2] at e
      simpa using e
    show retryLoop env p h st 1 1 (2 + 1) = _
    rw [retryLoop_step_fail env p h st 1 1 2 f1]
    simp [e2]

/-- Environment for the C10 witness, first scenario: pipeline always
succeeds, ledger write always raises. -/
def envMarkAllW : Env :=
  ⟨fun _ => ProcResult.ok true, fun _ => true, fun _ => false, false, false, false,
   "1970-01-01T00:00:00+00:00"⟩

/-- Environment for the C10 witness, second scenario: pipeline always
succeeds, the ledger write raises on attempt 1 only. -/
def envMarkOnceW : Env :=
  ⟨fun _ => ProcResult.ok true, fun n => n == 1, fun _ => false, false, false, false,
   "1970-01-01T00:00:00+00:00"⟩

/-- Witness for C10, exercising both scenarios. -/
theorem C10_mark_raise_fails_attempt_witness :
    _process_with_retries envMarkAllW stW ("a.pdf") ("h") 3 = ⟨stW, false, [1, 2], 3⟩
    ∧ _process_with_retries envMarkOnceW stW ("a.pdf") ("h") 3 =
        ⟨⟨removeFile stW.fs ("a.pdf"),
          _mark_processed stW.ledger ("h") (basename ("a.pdf")) envMarkOnceW.timestamp⟩,
         true, [1], 2⟩ :=
  ⟨(C10_mark_raise_fails_attempt envMarkAllW stW ("a.pdf") ("h")).1
     (fun _ => rfl) (fun _ => rfl),
   (C10_mark_raise_fails_attempt envMarkOnceW stW ("a.pdf") ("h")).2
     rfl rfl rfl rfl rfl⟩

/-- C1: submitting a path whose fingerprint already has a ledger row (with
no injected failure) deletes the local file and returns: the job list is
empty (so the pipeline is never invoked for this submission), the effect
trace shows only fingerprint, ledger read and file deletion — no
`jobScheduled` and no ledger write — and the resulting state keeps the
ledger unchanged (`st.ledger`) with only the file removed. -/
theorem C1_duplicate_deleted_no_job (env : Env) (st : CoreState) (p : String) (c : List Nat)
    (hpdf : isPdfPath p = true)
    (hfile : lookupFile st.fs p = some c)
    (hdup : _is_already_processed st.ledger (sha256OfChunked c) = true)
    (hbenign : env.benign) :
    submit_file env st p =
      .ok (⟨removeFile st.fs p, st.ledger⟩, [],
           [Eff.fingerprinted, Eff.ledgerRead, Eff.fileDeleted])
    ∧ lookupFile (removeFile st.fs p) p = none := by
  obtain ⟨hd, hs, hl⟩ := hbenign
  refine ⟨?_, lookupFile_removeFile_self _ _⟩
  simp [submit_file, hpdf, hfile, hs, hl, hdup, hd]

/-- State for the C1 witness: the file on disk is already recorded in the
ledger under its own fingerprint. -/
def stDupW : CoreState :=
  ⟨[(("a.pdf" : String), [1])],
   [⟨sha256OfChunked [1], "a.pdf", "1970-01-01T00:00:00+00:00"⟩]⟩

/-- Witness for C1. -/
theorem C1_duplicate_deleted_no_job_witness :
    submit_file envW stDupW ("a.pdf") =
      .ok (⟨removeFile stDupW.fs ("a.pdf"), stDupW.ledger⟩, [],
           [Eff.fingerprinted, Eff.ledgerRead, Eff.fileDeleted])
    ∧ lookupFile (removeFile stDupW.fs ("a.pdf")) ("a.pdf") = none :=
  C1_duplicate_deleted_no_job envW stDupW ("a.pdf") [1] (by decide) (by decide)
    (by simp [stDupW, _is_already_processed, List.find?]) ⟨rfl, rfl, rfl⟩

/-- C4: on a successful pipeline call the ledger row is written before the
source file is deleted, so a failing `os.remove` (its own inner
`try/except`) does not undo the write: the run still ends in Success with
the file left on disk (`st.fs` unchanged) but the record present, and any
later submission of content with the same fingerprint is handled as a
duplicate — file deleted, no job scheduled. -/
theorem C4_cleanup_failure_isolated (env : Env) (st : CoreState) (p h : String)
    (hp : env.procResults 1 = ProcResult.ok true)
    (hm : env.markRaises 1 = false)
    (hrm : env.removeRaises 1 = true) :
    _process_with_retries env st p h 3 =
      ⟨⟨st.fs, _mark_processed st.ledger h (basename p) env.timestamp⟩, true, [], 1⟩
    ∧ lookupRecord (_mark_processed st.ledger h (basename p) env.timestamp) h =
        some ⟨h, basename p, env.timestamp⟩
    ∧ ∀ (env2 : Env) (fs2 : FileSystem) (p2 : String) (c2 : List Nat),
        env2.benign → isPdfPath p2 = true → lookupFile fs2 p2 = some c2 →
        sha256OfChunked c2 = h →
        submit_file env2 ⟨fs2, _mark_processed st.ledger h (basename p) env.timestamp⟩ p2 =
          .ok (⟨removeFile fs2 p2, _mark_processed st.ledger h (basename p) env.timestamp⟩,
               [], [Eff.fingerprinted, Eff.ledgerRead, Eff.fileDeleted]) := by
  refine ⟨?_, lookupRecord_mark_self _ _ _ _, ?_⟩
  · have e := retryLoop_step_success env p h st 1 1 2 hp hm
    rw [hrm] at e
    simpa using e
  · intro env2 fs2 p2 c2 hb hpdf2 hf2 hc2
    obtain ⟨hd, hs, hl⟩ := hb
    have hdup : _is_already_processed
        (_mark_processed st.ledger h (basename p) env.timestamp) (sha256OfChunked c2) = true := by
      rw [hc2]
      exact is_already_processed_mark_self _ _ _ _
    simp [submit_file, hpdf2, hf2, hs, hl, hdup, hd]

/-- Environment for the C4 witness: pipeline succeeds on attempt 1 but
`os.remove` raises there. -/
def envRemoveRaisesW : Env :=
  ⟨fun _ => ProcResult.ok true, fun _ => false, fun _ => true, false, false, false,
   "1970-01-01T00:00:00+00:00"⟩

/-- Witness for C4, at the fingerprint of the one-byte content `[1]`. -/
theorem C4_cleanup_failure_isolated_witness :
    _process_with_retries envRemoveRaisesW stW ("a.pdf") (sha256OfChunked [1]) 3 =
      ⟨⟨stW.fs, _mark_processed stW.ledger (sha256OfChunked [1]) (basename ("a.pdf"))
                  envRemoveRaisesW.timestamp⟩, true, [], 1⟩
    ∧ lookupRecord (_mark_processed stW.ledger (sha256OfChunked [1]) (basename ("a.pdf"))
                      envRemoveRaisesW.timestamp) (sha256OfChunked [1]) =
        some ⟨sha256OfChunked [1], basename ("a.pdf"), envRemoveRaisesW.timestamp⟩
    ∧ ∀ (env2 : Env) (fs2 : FileSystem) (p2 : String) (c2 : List Nat),
        env2.benign → isPdfPath p2 = true → lookupFile fs2 p2 = some c2 →
        sha256OfChunked c2 = sha256OfChunked [1] →
        submit_file env2 ⟨fs2, _mark_processed stW.ledger (sha256OfChunked [1])
                                 (basename ("a.pdf")) envRemoveRaisesW.timestamp⟩ p2 =
          .ok (⟨removeFile fs2 p2, _mark_processed stW.ledger (sha256OfChunked [1])
                                     (basename ("a.pdf")) envRemoveRaisesW.timestamp⟩,
               [], [Eff.fingerprinted, Eff.ledgerRead, Eff.fileDeleted]) :=
  C4_cleanup_failure_isolated envRemoveRaisesW stW ("a.pdf") (sha256OfChunked [1])
    rfl rfl rfl

/-- C5: the claim fails on the code as written, and the code — not the
claim — is at fault. For every `.pdf` path, `on_file_received` raises
`NameError` back to the FTP arrival trigger: the bare-name call
`is_real_pdf(file_path)` at `ScannerHandler.py:55` resolves against module
globals, where the name does not exist (it is a class attribute), so the
three submission-failure classes the claim describes (missing file,
fingerprinting I/O error, ledger lookup error) sit in unreachable code —
only a non-`.pdf` path returns cleanly through the short-circuited first
disjunct. The module itself cannot even be imported (`Path` at line 8 is
unimported). The `try/except` around `manager.submit_file` at lines 76-81
shows containment is the code's own intent, so the spec states the design
and the bare names and missing import are slips. -/
theorem C5_handler_raises_name_error :
    on_file_received stW ("scan.pdf") = .error HandlerExn.nameError
    ∧ scannerHandlerImport = .error HandlerExn.nameError
    ∧ on_file_received stW ("notes.txt") = .ok (stW, []) := by
  refine ⟨rfl, rfl, rfl⟩

/-- C9: after a successful run, a fresh manager over the same ledger
storage sees the record — `_init_db` (`CREATE TABLE IF NOT EXISTS`) is an
idempotent bootstrap that preserves existing rows — and a submission of
identical-content bytes is immediately duplicate-deleted: no job is
scheduled and the effect trace holds no `jobScheduled`. -/
theorem C9_restart_durability (env : Env) (st : CoreState) (p h : String)
    (hp : env.procResults 1 = ProcResult.ok true)
    (hm : env.markRaises 1 = false)
    (hrm : env.removeRaises 1 = false) :
    _process_with_retries env st p h 3 =
      ⟨⟨removeFile st.fs p, _mark_processed st.ledger h (basename p) env.timestamp⟩,
       true, [], 1⟩
    ∧ _init_db (some (_mark_processed st.ledger h (basename p) env.timestamp)) =
        _mark_processed st.ledger h (basename p) env.timestamp
    ∧ ∀ (env2 : Env) (fs2 : FileSystem) (p2 : String) (c2 : List Nat),
        env2.benign → isPdfPath p2 = true → lookupFile fs2 p2 = some c2 →
        sha256OfChunked c2 = h →
        submit_file env2
          ⟨fs2, _init_db (some (_mark_processed st.ledger h (basename p) env.timestamp))⟩ p2 =
          .ok (⟨removeFile fs2 p2,
                _init_db (some (_mark_processed st.ledger h (basename p) env.timestamp))⟩,
               [], [Eff.fingerprinted, Eff.ledgerRead, Eff.fileDeleted]) := by
  refine ⟨?_, rfl, ?_⟩
  · have e := retryLoop_step_success env p h st 1 1 2 hp hm
    rw [hrm] at e
    simpa using e
  · intro env2 fs2 p2 c2 hb hpdf2 hf2 hc2
    obtain ⟨hd, hs, hl⟩ := hb
    have hdup : _is_already_processed
        (_mark_processed st.ledger h (basename p) env.timestamp)
        (sha256OfChunked c2) = true := by
      rw [hc2]
      exact is_already_processed_mark_self _ _ _ _
    simp [submit_file, hpdf2, hf2, hs, hl, hdup, hd, _init_db]

/-- Environment for the C9 witness: one clean successful run. -/
def envOkW : Env :=
  ⟨fun _ => ProcResult.ok true, fun _ => false, fun _ => false, false, false, false,
   "1970-01-01T00:00:00+00:00"⟩

/-- Witness for C9, at the fingerprint of the one-byte content `[1]`. -/
theorem C9_restart_durability_witness :
    _process_with_retries envOkW stW ("a.pdf") (sha256OfChunked [1]) 3 =
      ⟨⟨removeFile stW.fs ("a.pdf"),
        _mark_processed stW.ledger (sha256OfChunked [1]) (basename ("a.pdf"))
          envOkW.timestamp⟩, true, [], 1⟩
    ∧ _init_db (some (_mark_processed stW.ledger (sha256OfChunked [1]) (basename ("a.pdf"))
          envOkW.timestamp)) =
        _mark_processed stW.ledger (sha256OfChunked [1]) (basename ("a.pdf")) envOkW.timestamp
    ∧ ∀ (env2 : Env) (fs2 : FileSystem) (p2 : String) (c2 : List Nat),
        env2.benign → isPdfPath p2 = true → lookupFile fs2 p2 = some c2 →
        sha256OfChunked c2 = sha256OfChunked [1] →
        submit_file env2
          ⟨fs2, _init_db (some (_mark_processed stW.ledger (sha256OfChunked [1])
                                  (basename ("a.pdf")) envOkW.timestamp))⟩ p2 =
          .ok (⟨removeFile fs2 p2,
                _init_db (some (_mark_processed stW.ledger (sha256OfChunked [1])
                                  (basename ("a.pdf")) envOkW.timestamp))⟩,
               [], [Eff.fingerprinted, Eff.ledgerRead, Eff.fileDeleted]) :=
  C9_restart_durability envOkW stW ("a.pdf") (sha256OfChunked [1]) rfl rfl rfl
